import Mathlib

/-
Shallow embedding of the strategy decision engine of `auto_trade.py`
(kis-trader repository). Prices, rates and timestamps are modelled as
rationals; Python dicts persisted as JSON are modelled as association
lists keyed by the symbol string; Python `None`-able parameters are
modelled as `Option` values, with Python truthiness made explicit
(`None` and `0` are falsy).
-/

namespace KisTrader

/-- Python truthiness of an optional number: `None` and `0` are falsy. -/
def truthyQ (o : Option ℚ) : Bool :=
  match o with
  | none => false
  | some x => decide (x ≠ 0)

/-- Value of an optional number, defaulting to 0 (only read under a
truthiness guard, mirroring how Python reads the value after an
`x and ...` test). -/
def qval (o : Option ℚ) : ℚ := o.getD 0

/-- Python `int()` applied to a quotient: truncation toward zero. -/
def pyInt (q : ℚ) : ℤ := if q < 0 then -⌊-q⌋ else ⌊q⌋

/-- Kind of a buy signal, third component of the tuple returned by
`check_buy_conditions` (the Python strings "REGULAR" / "SCOUT"). -/
inductive BuyType
  | REGULAR
  | SCOUT
  deriving DecidableEq, Repr

/-- Reason string returned by `check_buy_conditions`, with the numbers
interpolated by the Python f-strings carried as payloads. -/
inductive BuyReason
  | smaInsufficient
  | aboveSma20 (price sma : ℚ)
  | belowSma60 (price sma60 : ℚ)
  | pullbackOk (price sma : ℚ)
  | scoutOk (rsi scoutRsi : ℚ)
  | belowSma20 (price sma : ℚ)
  | overbought (rsi maxRsi : ℚ)
  | breakoutOk (price sma : ℚ) (rsi : Option ℚ)
  | unknownStrategy (strategy : String)
  deriving DecidableEq, Repr

/-- Embedding of `check_buy_conditions` (auto_trade.py lines 481-525):
strategy-dependent entry decision returning
(buy?, reason, buy kind). Python truthiness of `rsi`, `sma_60` and
`max_rsi` is modelled with `truthyQ`. -/
def check_buy_conditions (current_price sma_20 : ℚ) (strategy : String)
    (sma_60 : Option ℚ := none) (rsi : Option ℚ := none)
    (use_sma60 : Bool := false) (max_rsi : Option ℚ := none)
    (scout_enabled : Bool := false) (scout_rsi : ℚ := 40) :
    Bool × BuyReason × Option BuyType :=
  if sma_20 = 0 then
    (false, .smaInsufficient, none)
  else if strategy = "pullback" then
    if sma_20 ≤ current_price then
      (false, .aboveSma20 current_price sma_20, none)
    else if use_sma60 && truthyQ sma_60 then
      if current_price < qval sma_60 then
        (false, .belowSma60 current_price (qval sma_60), none)
      else
        (true, .pullbackOk current_price sma_20, some .REGULAR)
    else
      (true, .pullbackOk current_price sma_20, some .REGULAR)
  else if strategy = "breakout" then
    if scout_enabled && truthyQ rsi && decide (qval rsi < scout_rsi) then
      (true, .scoutOk (qval rsi) scout_rsi, some .SCOUT)
    else if current_price ≤ sma_20 then
      (false, .belowSma20 current_price sma_20, none)
    else if truthyQ max_rsi && truthyQ rsi then
      if qval max_rsi ≤ qval rsi then
        (false, .overbought (qval rsi) (qval max_rsi), none)
      else
        (true, .breakoutOk current_price sma_20 rsi, some .REGULAR)
    else
      (true, .breakoutOk current_price sma_20 rsi, some .REGULAR)
  else
    (false, .unknownStrategy strategy, none)

/-- Embedding of `calculate_sma` (auto_trade.py lines 441-445): mean of
the first `period` prices, 0 when there are fewer than `period`. -/
def calculate_sma (prices : List ℚ) (period : ℕ := 20) : ℚ :=
  if prices.length < period then 0
  else (prices.take period).sum / period

/-- Embedding of `calculate_rsi` (auto_trade.py lines 448-478):
Wilder-style RSI over the most recent `period` day-over-day changes of
a most-recent-first price list, with sentinels 50 (too little data)
and 100 (no losses). -/
def calculate_rsi (prices : List ℚ) (period : ℕ := 14) : ℚ :=
  if prices.length < period + 1 then 50
  else
    let changes := (List.range period).map
      (fun i => prices.getD i 0 - prices.getD (i + 1) 0)
    let gains := changes.map (fun c => if 0 < c then c else 0)
    let losses := changes.map (fun c => if 0 < c then 0 else |c|)
    let avg_gain := gains.sum / period
    let avg_loss := losses.sum / period
    if avg_loss = 0 then 100
    else
      let rs := avg_gain / avg_loss
      100 - 100 / (1 + rs)

/-- One record of `trailing_stop_data.json`: the per-symbol high-water
price together with its update timestamp. -/
structure TrailEntry where
  high_price : ℚ
  updated_at : ℚ
  deriving DecidableEq, Repr

/-- The trailing-stop store: a JSON dict keyed by symbol. -/
abbrev TrailData := List (String × TrailEntry)

/-- One record of `cooldown_data.json`: when the cooldown was triggered
and by which protective exit. -/
structure CooldownEntry where
  triggered_at : ℚ
  reason : String
  deriving DecidableEq, Repr

/-- The cooldown store: a JSON dict keyed by symbol. -/
abbrev CooldownData := List (String × CooldownEntry)

/-- Python dict assignment `data[k] = v` on an association list. -/
def aset {α : Type} (k : String) (v : α) (l : List (String × α)) :
    List (String × α) :=
  (k, v) :: l.filter (fun p => p.1 ≠ k)

/-- Python dict deletion `del data[k]` on an association list. -/
def adelete {α : Type} (k : String) (l : List (String × α)) :
    List (String × α) :=
  l.filter (fun p => p.1 ≠ k)

/-- Embedding of `update_high_price` (auto_trade.py lines 339-356):
seeds the in-memory record to `avg_price` when the symbol is absent,
raises the stored high to `current_price` when exceeded (saving the
store only in that case), and returns the resulting high. The second
component is the persisted store after the call. -/
def update_high_price (data : TrailData) (symbol : String)
    (current_price avg_price now : ℚ) : ℚ × TrailData :=
  match List.lookup symbol data with
  | none =>
      if avg_price < current_price then
        (current_price, aset symbol ⟨current_price, now⟩ data)
      else
        (avg_price, data)
  | some e =>
      if e.high_price < current_price then
        (current_price, aset symbol ⟨current_price, now⟩ data)
      else
        (e.high_price, data)

/-- Embedding of `clear_trailing_stop_data` (auto_trade.py lines
359-365). -/
def clear_trailing_stop_data (symbol : String) (data : TrailData) :
    TrailData :=
  adelete symbol data

/-- Embedding of `set_cooldown` (auto_trade.py lines 391-399): records
the triggering time and reason for the symbol. -/
def set_cooldown (data : CooldownData) (symbol : String) (reason : String)
    (now : ℚ) : CooldownData :=
  aset symbol ⟨now, reason⟩ data

/-- Embedding of `check_cooldown` (auto_trade.py lines 402-426): reports
whether the symbol is cooling, with the remaining hours and original
reason, deleting an expired record. The last component is the
persisted store after the call. -/
def check_cooldown (data : CooldownData) (symbol : String)
    (now cooldown_hours : ℚ) : Bool × Option (ℚ × String) × CooldownData :=
  match List.lookup symbol data with
  | none => (false, none, data)
  | some e =>
      let elapsed_hours := (now - e.triggered_at) / 3600
      if cooldown_hours ≤ elapsed_hours then
        (false, none, adelete symbol data)
      else
        (true, some (cooldown_hours - elapsed_hours, e.reason), data)

/-- Embedding of `clear_cooldown` (auto_trade.py lines 429-435). -/
def clear_cooldown (symbol : String) (data : CooldownData) : CooldownData :=
  adelete symbol data

/-- The exit classification computed by `check_exit_conditions`
(the `action_type` variable). -/
inductive ExitAction
  | TAKE_PROFIT
  | STOP_LOSS
  | TRAILING_STOP
  | HOLD
  deriving DecidableEq, Repr

/-- The reason string stored by `set_cooldown`, as passed at
auto_trade.py line 655: the `action_type` string itself. -/
def actionName : ExitAction → String
  | .TAKE_PROFIT => "TAKE_PROFIT"
  | .STOP_LOSS => "STOP_LOSS"
  | .TRAILING_STOP => "TRAILING_STOP"
  | .HOLD => "HOLD"

/-- Embedding of the per-holding decision part of `check_exit_conditions`
(auto_trade.py lines 599-624): update the high-water price, derive the
high profit rate and the drop from the high, and classify by the
take-profit / stop-loss / trailing-stop chain. Returns the
classification, the updated high, and the persisted trailing store. -/
def check_exit_decision (data : TrailData) (symbol : String)
    (current_price avg_price profit_rate : ℚ)
    (take_profit stop_loss trailing_start trailing_drawdown now : ℚ) :
    ExitAction × ℚ × TrailData :=
  let r := update_high_price data symbol current_price avg_price now
  let high_price := r.1
  let high_profit_rate := (high_price - avg_price) / avg_price * 100
  let drop_from_high := (high_price - current_price) / high_price * 100
  let action :=
    if take_profit ≤ profit_rate then ExitAction.TAKE_PROFIT
    else if profit_rate ≤ stop_loss then ExitAction.STOP_LOSS
    else if trailing_start ≤ high_profit_rate ∧
            trailing_drawdown ≤ drop_from_high then ExitAction.TRAILING_STOP
    else ExitAction.HOLD
  (action, high_price, r.2)

/-- The two persisted ledgers touched by an executed exit. -/
structure RunState where
  trailing : TrailData
  cooldown : CooldownData
  deriving DecidableEq, Repr

/-- Embedding of the post-sale bookkeeping of `check_exit_conditions`
(auto_trade.py lines 650-655, the successful-sell path): the trailing
record is deleted, and a cooldown is set exactly for STOP_LOSS and
TRAILING_STOP, with the action name as reason. -/
def executeExit (s : RunState) (symbol : String) (action : ExitAction)
    (now : ℚ) : RunState :=
  let trailing2 := clear_trailing_stop_data symbol s.trailing
  if action = ExitAction.STOP_LOSS ∨ action = ExitAction.TRAILING_STOP then
    { trailing := trailing2,
      cooldown := set_cooldown s.cooldown symbol (actionName action) now }
  else
    { trailing := trailing2, cooldown := s.cooldown }

/-- A per-symbol configuration as returned by `get_target_config`
(auto_trade.py lines 531-563). The allocation fraction for scout buys
(named `scout_ratio` in the source) is called `scout_share` here. -/
structure TargetConfig where
  strategy : String
  take_profit : ℚ
  stop_loss : ℚ
  use_sma60 : Bool
  max_rsi : Option ℚ
  trailing_start : ℚ
  trailing_drawdown : ℚ
  cooldown_hours : ℚ
  scout_enabled : Bool
  scout_rsi : ℚ
  scout_share : ℚ
  deriving DecidableEq, Repr

/-- Outcome dictionary returned by `process_buy`, one constructor per
distinct `action` value (the cooling SKIP carries the cooldown message,
the signal-miss SKIP carries price, SMA and reason, as in the source
dicts). -/
inductive BuyResult
  | skipCooldown (msg : Option (ℚ × String))
  | skip (price sma : ℚ) (reason : BuyReason)
  | noBalance (price available : ℚ)
  | buy (buy_type : Option BuyType) (price : ℚ) (quantity : ℤ)
  | failed (price : ℚ)
  deriving DecidableEq, Repr

/-- External calls made while processing one symbol, in order. -/
inductive Effect
  | fetchPrice
  | fetchDaily
  | evalSignal
  | fetchBalance
  | placeOrder
  deriving DecidableEq, Repr

/-- The indicator-and-signal stage of `process_buy` (auto_trade.py
lines 725-763): compute the 20-day SMA, the optional 60-day SMA and
the optional RSI from the fetched daily prices, and evaluate
`check_buy_conditions`. `sma_60` is computed only under `use_sma60`
and `rsi` only when `max_rsi` is truthy, as in the source. -/
def entrySignal (cfg : TargetConfig) (current_price : ℚ)
    (daily_prices : List ℚ) : Bool × BuyReason × Option BuyType :=
  let sma_20 := calculate_sma daily_prices 20
  let sma_60 := if cfg.use_sma60 then some (calculate_sma daily_prices 60)
                else none
  let rsi := if truthyQ cfg.max_rsi then some (calculate_rsi daily_prices 14)
             else none
  check_buy_conditions current_price sma_20 cfg.strategy sma_60 rsi
    cfg.use_sma60 cfg.max_rsi cfg.scout_enabled cfg.scout_rsi

/-- The scout adjustment of the buying power in `process_buy`
(auto_trade.py lines 777-779): the funds are multiplied by the scout
allocation fraction exactly when the buy kind is SCOUT. -/
def scoutAdjusted (cfg : TargetConfig) (buy_type : Option BuyType)
    (available_usd : ℚ) : ℚ :=
  if buy_type = some BuyType.SCOUT then available_usd * cfg.scout_share
  else available_usd

/-- Embedding of `process_buy` (auto_trade.py lines 683-822) on the
success path of the external calls: the broker answers are supplied as
the oracle inputs `current_price` (quote), `daily_prices` (history),
`available_usd` (buying power) and `orderOk` (order acceptance).
Returns the result dictionary, the trace of external calls made, and
the persisted cooldown store. A cooling symbol returns SKIP before any
external call or signal evaluation. -/
def process_buy (cd : CooldownData) (symbol : String) (cfg : TargetConfig)
    (now : ℚ) (current_price : ℚ) (daily_prices : List ℚ)
    (available_usd : ℚ) (orderOk : Bool) :
    BuyResult × List Effect × CooldownData :=
  let c := check_cooldown cd symbol now cfg.cooldown_hours
  if c.1 then
    (.skipCooldown c.2.1, [], c.2.2)
  else
    let sig := entrySignal cfg current_price daily_prices
    if sig.1 then
      let available := scoutAdjusted cfg sig.2.2 available_usd
      let final_quantity := pyInt (available / current_price)
      if final_quantity < 1 then
        (.noBalance current_price available,
         [.fetchPrice, .fetchDaily, .evalSignal, .fetchBalance], c.2.2)
      else if orderOk then
        (.buy sig.2.2 current_price final_quantity,
         [.fetchPrice, .fetchDaily, .evalSignal, .fetchBalance, .placeOrder],
         c.2.2)
      else
        (.failed current_price,
         [.fetchPrice, .fetchDaily, .evalSignal, .fetchBalance, .placeOrder],
         c.2.2)
    else
      (.skip current_price (calculate_sma daily_prices 20) sig.2.1,
       [.fetchPrice, .fetchDaily, .evalSignal], c.2.2)

/-- The high-water price the store holds for a symbol, defaulting to the
average cost when no record exists (the seed of `update_high_price`). -/
def storedHigh (data : TrailData) (symbol : String) (avg_price : ℚ) : ℚ :=
  ((List.lookup symbol data).map TrailEntry.high_price).getD avg_price

/-- Definition following the words of the specification for the Exit
Signal Evaluator (spec section 4.3), to be compared with the embedded
`check_exit_decision`: first `high = max(high_water_price,
current_price)` (seeded to the average cost when absent), then the
first-match priority chain take-profit, stop-loss, trailing-stop,
hold. -/
def exit_decision_spec (high_water : Option ℚ)
    (current_price avg_cost profit_rate : ℚ)
    (take_profit_pct stop_loss_pct trailing_activate_pct
     trailing_drawdown_pct : ℚ) : ExitAction :=
  let high := max (high_water.getD avg_cost) current_price
  let high_profit_rate := (high - avg_cost) / avg_cost * 100
  let drop_from_high := (high - current_price) / high * 100
  if profit_rate ≥ take_profit_pct then ExitAction.TAKE_PROFIT
  else if profit_rate ≤ stop_loss_pct then ExitAction.STOP_LOSS
  else if high_profit_rate ≥ trailing_activate_pct ∧
          drop_from_high ≥ trailing_drawdown_pct then ExitAction.TRAILING_STOP
  else ExitAction.HOLD

/-- Repeated calls of `update_high_price` for one symbol over a list of
(timestamp, current price) observations, collecting the returned
high-water prices and threading the persisted store. -/
def runHighs (symbol : String) (avg_price : ℚ) :
    List (ℚ × ℚ) → TrailData → List ℚ
  | [], _ => []
  | (t, c) :: rest, data =>
      let r := update_high_price data symbol c avg_price t
      r.1 :: runHighs symbol avg_price rest r.2

theorem lookup_aset_self {α : Type} (k : String) (v : α)
    (l : List (String × α)) : List.lookup k (aset k v l) = some v := by
  simp [aset, List.lookup]

theorem lookup_adelete {α : Type} (k : String) (l : List (String × α)) :
    List.lookup k (adelete k l) = none := by
  induction l with
  | nil => rfl
  | cons p rest ih =>
      rcases eq_or_ne p.1 k with h | h
      · simpa [adelete, List.filter_cons, h] using ih
      · have hk : ¬(k == p.1) = true := by
          simp [beq_iff_eq]
          exact fun he => h he.symm
        simpa [adelete, List.filter_cons, h, List.lookup, hk] using ih

theorem update_high_price_fst (data : TrailData) (symbol : String)
    (current_price avg_price now : ℚ) :
    (update_high_price data symbol current_price avg_price now).1
      = max (storedHigh data symbol avg_price) current_price := by
  unfold update_high_price storedHigh
  cases h : List.lookup symbol data with
  | none =>
      simp only [Option.map_none, Option.getD_none]
      rcases lt_or_le avg_price current_price with h2 | h2
      · simp [h2, max_eq_right h2.le]
      · simp [not_lt.mpr h2, max_eq_left h2]
  | some e =>
      simp only [Option.map_some, Option.getD_some]
      rcases lt_or_le e.high_price current_price with h2 | h2
      · simp [h2, max_eq_right h2.le]
      · simp [not_lt.mpr h2, max_eq_left h2]

theorem update_high_price_stored (data : TrailData) (symbol : String)
    (current_price avg_price now : ℚ) :
    storedHigh (update_high_price data symbol current_price avg_price now).2
        symbol avg_price
      = (update_high_price data symbol current_price avg_price now).1 := by
  unfold update_high_price
  cases h : List.lookup symbol data with
  | none =>
      rcases lt_or_le avg_price current_price with h2 | h2
      · simp [h2, storedHigh, lookup_aset_self]
      · simp [not_lt.mpr h2, storedHigh, h]
  | some e =>
      rcases lt_or_le e.high_price current_price with h2 | h2
      · simp [h2, storedHigh, lookup_aset_self]
      · simp [not_lt.mpr h2, storedHigh, h]

theorem runHighs_chain_and_bound (symbol : String) (avg_price : ℚ) :
    ∀ (ticks : List (ℚ × ℚ)) (data : TrailData),
      List.Chain' (· ≤ ·) (runHighs symbol avg_price ticks data) ∧
      ∀ x ∈ runHighs symbol avg_price ticks data,
        storedHigh data symbol avg_price ≤ x := by
  intro ticks
  induction ticks with
  | nil => intro data; simp [runHighs]
  | cons tc rest ih =>
      intro data
      obtain ⟨t, c⟩ := tc
      have hfst := update_high_price_fst data symbol c avg_price t
      have hstored := update_high_price_stored data symbol c avg_price t
      have ihd := ih (update_high_price data symbol c avg_price t).2
      constructor
      · rw [runHighs, List.chain'_cons']
        refine ⟨?_, ihd.1⟩
        intro b hb
        have hmem := List.mem_of_mem_head? hb
        have := ihd.2 b hmem
        rw [hstored] at this
        exact this
      · intro x hx
        rw [runHighs, List.mem_cons] at hx
        rcases hx with hx | hx
        · rw [hx, hfst]; exact le_max_left _ _
        · have h1 : storedHigh data symbol avg_price
              ≤ (update_high_price data symbol c avg_price t).1 := by
            rw [hfst]; exact le_max_left _ _
          have h2 := ihd.2 x hx
          rw [hstored] at h2
          exact h1.trans h2

/-- Arithmetic mean of a list of rationals. -/
def arithMean (l : List ℚ) : ℚ := l.sum / l.length

/-- C8: `calculate_sma` returns 0 whenever fewer than `period` prices
are available, and otherwise the arithmetic mean of the first `period`
elements of the most-recent-first price list. -/
theorem calculate_sma_spec (prices : List ℚ) (period : ℕ) :
    calculate_sma prices period =
      if prices.length < period then 0
      else arithMean (prices.take period) := by
  unfold calculate_sma arithMean
  rcases lt_or_le prices.length period with h | h
  · simp [h]
  · rw [if_neg (not_lt.mpr h), if_neg (not_lt.mpr h), List.length_take,
      Nat.min_eq_left h]

/-- C9: `calculate_rsi` returns the neutral sentinel 50 whenever fewer
than `period + 1` prices are available, and returns 100 whenever the
most recent `period` day-over-day changes contain no loss (each price
is at least the one before it). -/
theorem calculate_rsi_sentinels (prices : List ℚ) (period : ℕ) :
    (prices.length < period + 1 → calculate_rsi prices period = 50) ∧
    (period + 1 ≤ prices.length →
      (∀ i < period, prices.getD (i + 1) 0 ≤ prices.getD i 0) →
      calculate_rsi prices period = 100) := by
  constructor
  · intro h
    simp [calculate_rsi, h]
  · intro hlen hmono
    have hzero : (((List.range period).map
        (fun i => prices.getD i 0 - prices.getD (i + 1) 0)).map
          (fun c => if 0 < c then (0 : ℚ) else |c|)).sum = 0 := by
      apply List.sum_eq_zero
      intro x hx
      rw [List.mem_map] at hx
      obtain ⟨c, hc, rfl⟩ := hx
      rw [List.mem_map] at hc
      obtain ⟨i, hi, rfl⟩ := hc
      rw [List.mem_range] at hi
      have hge : 0 ≤ prices.getD i 0 - prices.getD (i + 1) 0 :=
        sub_nonneg.mpr (hmono i hi)
      rcases eq_or_lt_of_le hge with h0 | hpos
      · rw [if_neg (by rw [← h0]; exact lt_irrefl 0), ← h0, abs_zero]
      · rw [if_pos hpos]
    have hzero2 := hzero
    simp only [List.map_map, List.getD_eq_getElem?_getD] at hzero2
    simp [calculate_rsi, not_lt.mpr hlen, hzero2]

/-- Witness for C9 at concrete inputs: a two-element series is too
short for period 14, and a falling most-recent-first series (no
day-over-day losses) has RSI 100. -/
theorem calculate_rsi_sentinels_witness :
    calculate_rsi [1, 2] 14 = 50 ∧ calculate_rsi [3, 2, 1] 2 = 100 :=
  ⟨(calculate_rsi_sentinels [1, 2] 14).1 (by norm_num),
   (calculate_rsi_sentinels [3, 2, 1] 2).2 (by norm_num)
     (by intro i hi; interval_cases i <;> norm_num)⟩

/-- C7: the PULLBACK strategy never signals a buy when the current
price is at or above the 20-period SMA, for every RSI, every long
average, and every other configuration value. -/
theorem pullback_no_buy_above_sma (current_price sma_20 : ℚ)
    (sma_60 rsi : Option ℚ) (use_sma60 : Bool) (max_rsi : Option ℚ)
    (scout_enabled : Bool) (scout_rsi : ℚ)
    (h : sma_20 ≤ current_price) :
    (check_buy_conditions current_price sma_20 "pullback" sma_60 rsi
        use_sma60 max_rsi scout_enabled scout_rsi).1 = false := by
  unfold check_buy_conditions
  rcases eq_or_ne sma_20 0 with h0 | h0
  · simp [h0]
  · simp [h0, h]

/-- Witness for C7 at a concrete input above the short average. -/
theorem pullback_no_buy_above_sma_witness :
    (10 : ℚ) ≤ 12 ∧
    (check_buy_conditions 12 10 "pullback" none (some 5) false none
        false 40).1 = false :=
  ⟨by norm_num,
   pullback_no_buy_above_sma 12 10 none (some 5) false none false 40
     (by norm_num)⟩

/-- C10: for every strategy string other than "pullback" and
"breakout", `check_buy_conditions` returns a no-buy verdict with a
null buy kind, for all other inputs. -/
theorem unknown_strategy_no_buy (current_price sma_20 : ℚ)
    (strategy : String) (sma_60 rsi : Option ℚ) (use_sma60 : Bool)
    (max_rsi : Option ℚ) (scout_enabled : Bool) (scout_rsi : ℚ)
    (h1 : strategy ≠ "pullback") (h2 : strategy ≠ "breakout") :
    (check_buy_conditions current_price sma_20 strategy sma_60 rsi
        use_sma60 max_rsi scout_enabled scout_rsi).1 = false ∧
    (check_buy_conditions current_price sma_20 strategy sma_60 rsi
        use_sma60 max_rsi scout_enabled scout_rsi).2.2 = none := by
  unfold check_buy_conditions
  rcases eq_or_ne sma_20 0 with h0 | h0 <;> simp [h0, h1, h2]

/-- Witness for C10 at the concrete strategy string "momentum". -/
theorem unknown_strategy_no_buy_witness :
    ("momentum" ≠ "pullback") ∧ ("momentum" ≠ "breakout") ∧
    (check_buy_conditions 12 10 "momentum" none none false none
        false 40).1 = false ∧
    (check_buy_conditions 12 10 "momentum" none none false none
        false 40).2.2 = none :=
  ⟨by decide, by decide,
   (unknown_strategy_no_buy 12 10 "momentum" none none false none
      false 40 (by decide) (by decide)).1,
   (unknown_strategy_no_buy 12 10 "momentum" none none false none
      false 40 (by decide) (by decide)).2⟩

/-- Counterexample to C1 as stated: with scout entries enabled and RSI
strictly below the floor (30 < 40, then 0 < 40), `check_buy_conditions`
does not return a SCOUT signal when the short SMA carries the
insufficient-data sentinel 0 (first input: no buy at all), nor when the
supplied RSI is exactly 0, which is falsy in the scout guard (second
input: a REGULAR breakout buy instead). -/
theorem breakout_scout_counterexample :
    (check_buy_conditions 100 0 "breakout" none (some 30) false none
        true 40).2.2 ≠ some BuyType.SCOUT ∧
    (check_buy_conditions 100 50 "breakout" none (some 0) false none
        true 40).2.2 ≠ some BuyType.SCOUT := by
  have h1 : (check_buy_conditions 100 0 "breakout" none (some 30) false
      none true 40).2.2 = none := by rfl
  have h2 : (check_buy_conditions 100 50 "breakout" none (some 0) false
      none true 40).2.2 = some BuyType.REGULAR := by rfl
  rw [h1, h2]
  exact ⟨by simp, by simp⟩

/-- C1 amended: for the BREAKOUT strategy with scout entries enabled,
whenever the short SMA is not the insufficient-data sentinel 0 and the
supplied RSI is nonzero and strictly below the scout floor,
`check_buy_conditions` returns a SCOUT buy signal for every current
price and every other configuration value: under those conditions the
scout check short-circuits all other breakout checks. -/
theorem breakout_scout_amended (current_price sma_20 rsi : ℚ)
    (sma_60 : Option ℚ) (use_sma60 : Bool) (max_rsi : Option ℚ)
    (scout_rsi : ℚ)
    (hsma : sma_20 ≠ 0) (hrsi : rsi ≠ 0) (hlt : rsi < scout_rsi) :
    check_buy_conditions current_price sma_20 "breakout" sma_60
        (some rsi) use_sma60 max_rsi true scout_rsi
      = (true, BuyReason.scoutOk rsi scout_rsi, some BuyType.SCOUT) := by
  unfold check_buy_conditions
  simp [hsma, truthyQ, qval, hrsi, hlt]

/-- Witness for the amended C1 at a concrete input where the current
price sits far below the short average (the normal breakout gate would
refuse) and the scout entry fires anyway. -/
theorem breakout_scout_amended_witness :
    (50 : ℚ) ≠ 0 ∧ (30 : ℚ) ≠ 0 ∧ (30 : ℚ) < 40 ∧
    check_buy_conditions 5 50 "breakout" none (some 30) false none
        true 40
      = (true, BuyReason.scoutOk 30 40, some BuyType.SCOUT) :=
  ⟨by norm_num, by norm_num, by norm_num,
   breakout_scout_amended 5 50 30 none false none 40 (by norm_num)
     (by norm_num) (by norm_num)⟩

/-- C2: the per-holding exit classification of `check_exit_conditions`
agrees with the specified first-match priority chain evaluated at
`high = max(high_water_price, current_price)` (high water defaulting to
the average cost), with `high_profit_rate = (high - avg)/avg*100` and
`drop_from_high = (high - current)/high*100`. -/
theorem exit_decision_matches_spec (data : TrailData) (symbol : String)
    (current_price avg_price profit_rate : ℚ)
    (take_profit stop_loss trailing_start trailing_drawdown now : ℚ) :
    (check_exit_decision data symbol current_price avg_price profit_rate
        take_profit stop_loss trailing_start trailing_drawdown now).1
      = exit_decision_spec
          ((List.lookup symbol data).map TrailEntry.high_price)
          current_price avg_price profit_rate
          take_profit stop_loss trailing_start trailing_drawdown := by
  have h := update_high_price_fst data symbol current_price avg_price now
  simp only [check_exit_decision, exit_decision_spec, h, storedHigh,
    ge_iff_le]

/-- C3: on the successful-sell path of `check_exit_conditions`, a
TAKE_PROFIT exit leaves the cooldown store untouched, a STOP_LOSS or
TRAILING_STOP exit records a cooldown for the symbol carrying the
triggering action as its reason, and every exit deletes the symbol
from the trailing store. -/
theorem exit_bookkeeping (s : RunState) (symbol : String) (now : ℚ) :
    ((executeExit s symbol ExitAction.TAKE_PROFIT now).cooldown
       = s.cooldown) ∧
    (List.lookup symbol
        (executeExit s symbol ExitAction.STOP_LOSS now).cooldown
       = some ⟨now, "STOP_LOSS"⟩) ∧
    (List.lookup symbol
        (executeExit s symbol ExitAction.TRAILING_STOP now).cooldown
       = some ⟨now, "TRAILING_STOP"⟩) ∧
    (∀ action : ExitAction,
      List.lookup symbol (executeExit s symbol action now).trailing
        = none) := by
  refine ⟨?_, ?_, ?_, ?_⟩
  · simp [executeExit]
  · simp [executeExit, set_cooldown, actionName, lookup_aset_self]
  · simp [executeExit, set_cooldown, actionName, lookup_aset_self]
  · intro action
    cases action <;>
      simp [executeExit, clear_trailing_stop_data, lookup_adelete]

/-- The VRT entry of `TARGETS` (auto_trade.py lines 26-36) as seen
through `get_target_config`. -/
def vrtConfig : TargetConfig :=
  { strategy := "pullback", take_profit := 10, stop_loss := -5,
    use_sma60 := true, max_rsi := none, trailing_start := 7,
    trailing_drawdown := 5, cooldown_hours := 4, scout_enabled := false,
    scout_rsi := 40, scout_share := 1/2 }

/-- The ORCL entry of `TARGETS` (auto_trade.py lines 37-51) as seen
through `get_target_config`. -/
def orclConfig : TargetConfig :=
  { strategy := "breakout", take_profit := 7, stop_loss := -4,
    use_sma60 := false, max_rsi := some 70, trailing_start := 5,
    trailing_drawdown := 3, cooldown_hours := 2, scout_enabled := true,
    scout_rsi := 40, scout_share := 1/2 }

/-- C4: `update_high_price` seeds the high-water value to the average
cost when no record exists, so the returned high is at least the
average cost, and the sequence of highs returned (and persisted)
across repeated calls with arbitrarily ordered current prices within
one lifecycle is non-decreasing and stays at or above the average
cost. -/
theorem trailing_high_seed_and_monotone (symbol : String)
    (avg_price now current_price : ℚ) (data : TrailData)
    (ticks : List (ℚ × ℚ))
    (hnone : List.lookup symbol data = none) :
    avg_price
      ≤ (update_high_price data symbol current_price avg_price now).1 ∧
    List.Chain' (· ≤ ·) (runHighs symbol avg_price ticks data) ∧
    ∀ x ∈ runHighs symbol avg_price ticks data, avg_price ≤ x := by
  have hstored : storedHigh data symbol avg_price = avg_price := by
    simp [storedHigh, hnone]
  have h := runHighs_chain_and_bound symbol avg_price ticks data
  refine ⟨?_, h.1, ?_⟩
  · rw [update_high_price_fst, hstored]
    exact le_max_left _ _
  · intro x hx
    have hb := h.2 x hx
    rwa [hstored] at hb

/-- Witness for C4: starting with no record, highs returned over the
price path 5 then 3 (average cost 4) form a non-decreasing sequence
bounded below by the average cost. -/
theorem trailing_high_seed_and_monotone_witness :
    List.lookup "VRT" ([] : TrailData) = none ∧
    ((4 : ℚ) ≤ (update_high_price [] "VRT" 5 4 0).1 ∧
     List.Chain' (· ≤ ·) (runHighs "VRT" 4 [(0, 5), (1, 3)] []) ∧
     ∀ x ∈ runHighs "VRT" 4 [(0, 5), (1, 3)] [], (4 : ℚ) ≤ x) :=
  ⟨rfl, trailing_high_seed_and_monotone "VRT" 4 0 5 [] [(0, 5), (1, 3)] rfl⟩

/-- C5: a symbol whose cooldown record is younger than the configured
cooldown hours makes `process_buy` return the cooling SKIP result
immediately: no external call is made (empty effect trace, so no price
fetch, no indicator data and no signal evaluation) and the cooldown
store is left unchanged. -/
theorem cooling_skips_entry (cd : CooldownData) (symbol : String)
    (cfg : TargetConfig) (now current_price : ℚ)
    (daily_prices : List ℚ) (available_usd : ℚ) (orderOk : Bool)
    (e : CooldownEntry)
    (hmem : List.lookup symbol cd = some e)
    (hcool : (now - e.triggered_at) / 3600 < cfg.cooldown_hours) :
    process_buy cd symbol cfg now current_price daily_prices
        available_usd orderOk
      = (BuyResult.skipCooldown
           (some (cfg.cooldown_hours - (now - e.triggered_at) / 3600,
                  e.reason)),
         [], cd) := by
  unfold process_buy check_cooldown
  rw [hmem]
  simp [not_le.mpr hcool]

/-- Witness for C5: ORCL one hour after a stop-loss (cooldown two
hours) is skipped with one hour remaining, no effects, store
unchanged. -/
theorem cooling_skips_entry_witness :
    List.lookup "ORCL" [("ORCL", CooldownEntry.mk 0 "STOP_LOSS")]
      = some ⟨0, "STOP_LOSS"⟩ ∧
    ((3600 : ℚ) - 0) / 3600 < orclConfig.cooldown_hours ∧
    process_buy [("ORCL", ⟨0, "STOP_LOSS"⟩)] "ORCL" orclConfig 3600 100
        [] 1000 true
      = (BuyResult.skipCooldown (some (1, "STOP_LOSS")), [],
         [("ORCL", ⟨0, "STOP_LOSS"⟩)]) := by
  refine ⟨rfl, by norm_num [orclConfig], ?_⟩
  have h := cooling_skips_entry [("ORCL", ⟨0, "STOP_LOSS"⟩)] "ORCL"
    orclConfig 3600 100 [] 1000 true ⟨0, "STOP_LOSS"⟩ rfl
    (by norm_num [orclConfig])
  rw [h]
  norm_num [orclConfig]

/-- C6: when the entry signal fires and the cooldown is inactive, the
order quantity computed by `process_buy` is the floor of the
scout-adjusted funds divided by the current price (the funds are
multiplied by the scout fraction exactly when the buy kind is SCOUT),
a quantity below one share yields the NO_BALANCE result (a normal
return, distinct from the no-signal SKIP), and a quantity of at least
one share is the quantity ordered. -/
theorem sizing_floor_and_no_balance (cd : CooldownData)
    (symbol : String) (cfg : TargetConfig) (now current_price : ℚ)
    (daily_prices : List ℚ) (available_usd : ℚ) (orderOk : Bool)
    (hcool : (check_cooldown cd symbol now cfg.cooldown_hours).1 = false)
    (hsig : (entrySignal cfg current_price daily_prices).1 = true)
    (hfunds : 0 ≤ available_usd) (hshare : 0 ≤ cfg.scout_share)
    (hprice : 0 < current_price) :
    pyInt (scoutAdjusted cfg
        (entrySignal cfg current_price daily_prices).2.2 available_usd
        / current_price)
      = ⌊scoutAdjusted cfg
          (entrySignal cfg current_price daily_prices).2.2 available_usd
          / current_price⌋ ∧
    (pyInt (scoutAdjusted cfg
        (entrySignal cfg current_price daily_prices).2.2 available_usd
        / current_price) < 1 →
      (process_buy cd symbol cfg now current_price daily_prices
          available_usd orderOk).1
        = BuyResult.noBalance current_price
            (scoutAdjusted cfg
              (entrySignal cfg current_price daily_prices).2.2
              available_usd)) ∧
    (1 ≤ pyInt (scoutAdjusted cfg
        (entrySignal cfg current_price daily_prices).2.2 available_usd
        / current_price) →
      (process_buy cd symbol cfg now current_price daily_prices
          available_usd orderOk).1
        = if orderOk then
            BuyResult.buy (entrySignal cfg current_price daily_prices).2.2
              current_price
              (pyInt (scoutAdjusted cfg
                (entrySignal cfg current_price daily_prices).2.2
                available_usd / current_price))
          else BuyResult.failed current_price) := by
  have havail : 0 ≤ scoutAdjusted cfg
      (entrySignal cfg current_price daily_prices).2.2 available_usd := by
    unfold scoutAdjusted
    split
    · exact mul_nonneg hfunds hshare
    · exact hfunds
  have hq : 0 ≤ scoutAdjusted cfg
      (entrySignal cfg current_price daily_prices).2.2 available_usd
      / current_price := div_nonneg havail hprice.le
  have hpy : pyInt (scoutAdjusted cfg
      (entrySignal cfg current_price daily_prices).2.2 available_usd
      / current_price)
    = ⌊scoutAdjusted cfg
        (entrySignal cfg current_price daily_prices).2.2 available_usd
        / current_price⌋ := by
    unfold pyInt
    rw [if_neg (not_lt.mpr hq)]
  refine ⟨hpy, ?_, ?_⟩
  · intro hlt
    simp only [process_buy, hcool, Bool.false_eq_true, if_false, hsig,
      if_true, hlt]
  · intro hge
    have hnlt : ¬ pyInt (scoutAdjusted cfg
        (entrySignal cfg current_price daily_prices).2.2 available_usd
        / current_price) < 1 := not_lt.mpr hge
    simp only [process_buy, hcool, Bool.false_eq_true, if_false, hsig,
      if_true, hnlt]
    split <;> rfl

/-- Twenty days of flat closes at 10, enough for the 20-day SMA. -/
def dTwenty : List ℚ :=
  [10, 10, 10, 10, 10, 10, 10, 10, 10, 10,
   10, 10, 10, 10, 10, 10, 10, 10, 10, 10]

/-- Witness for C6: a pullback signal at price 5 (SMA 10) with three
dollars of funds sizes to zero shares and returns NO_BALANCE. -/
theorem sizing_floor_and_no_balance_witness :
    (check_cooldown [] "VRT" 0 vrtConfig.cooldown_hours).1 = false ∧
    (entrySignal vrtConfig 5 dTwenty).1 = true ∧
    (0 : ℚ) ≤ 3 ∧ (0 : ℚ) ≤ vrtConfig.scout_share ∧ (0 : ℚ) < 5 ∧
    (process_buy [] "VRT" vrtConfig 0 5 dTwenty 3 true).1
      = BuyResult.noBalance 5 3 := by
  have hsigFull : entrySignal vrtConfig 5 dTwenty
      = (true, BuyReason.pullbackOk 5 10, some BuyType.REGULAR) := by
    norm_num [entrySignal, vrtConfig, dTwenty, calculate_sma,
      check_buy_conditions, truthyQ]
  have hsig : (entrySignal vrtConfig 5 dTwenty).1 = true := by
    rw [hsigFull]
  have h := sizing_floor_and_no_balance [] "VRT" vrtConfig 0 5 dTwenty
    3 true rfl hsig (by norm_num) (by norm_num [vrtConfig])
    (by norm_num)
  have hadj : scoutAdjusted vrtConfig
      (entrySignal vrtConfig 5 dTwenty).2.2 3 = 3 := by
    rw [hsigFull]
    norm_num [scoutAdjusted]
    intro hcon
    exact absurd hcon (by decide)
  have hlt : pyInt (scoutAdjusted vrtConfig
      (entrySignal vrtConfig 5 dTwenty).2.2 3 / 5) < 1 := by
    rw [hadj]
    norm_num [pyInt]
  refine ⟨rfl, hsig, by norm_num, by norm_num [vrtConfig], by norm_num,
    ?_⟩
  have h2 := h.2.1 hlt
  rw [h2, hadj]

end KisTrader
